import Mathlib

/-!
Shallow embedding of the ERP Orchestrator task service (src/main.py).

The Task Store endpoints (`create_task`, `get_task`, `update_task`) and the
Conversation Gate (`chat`) are translated directly from the source.  The
Mongo document collection is modelled as an association list from id
strings to task documents; pydantic request validation is modelled by
boolean validity predicates checked at the request boundary, and pydantic
tri-state fields (unset / explicit null / value) of the partial-update
request are modelled by the `Patch` type, mirroring
`model_dump(exclude_unset=True)`.
-/

namespace ERP

/-- Task and step status enumeration: `Literal["running","queued","complete","error"]`
in the source (the `Status` and `StepStatus` literals list the same four values). -/
inductive Status
  | running
  | queued
  | complete
  | error
deriving DecidableEq, Repr

/-- One pipeline step (`class Step`). `progress` is `Optional[int]` with
pydantic bounds `ge=0, le=100`, checked by `Step.progressOk` below. -/
structure Step where
  name : String
  status : Status := .queued
  llm : Option String := none
  progress : Option Int := none
  duration : Option String := none
deriving DecidableEq, Repr

/-- Pydantic range constraint on `Step.progress` (`ge=0, le=100`; `None` passes). -/
def Step.progressOk (s : Step) : Bool :=
  match s.progress with
  | none => true
  | some p => decide (0 ≤ p) && decide (p ≤ 100)

/-- Canvas block metadata (`class BlockMetadata`); `level` is bounded `ge=1, le=3`. -/
structure BlockMetadata where
  level : Option Int := none
  formatting : Option (List String) := none
  language : Option String := none
  variant : Option String := none
  chartType : Option String := none
deriving DecidableEq, Repr

/-- Pydantic range constraint on `BlockMetadata.level` (`ge=1, le=3`). -/
def BlockMetadata.levelOk (m : BlockMetadata) : Bool :=
  match m.level with
  | none => true
  | some l => decide (1 ≤ l) && decide (l ≤ 3)

/-- Block type enumeration from `class Block`. -/
inductive BlockType
  | heading
  | text
  | table
  | chart
  | code
  | callout
  | image
  | divider
  | quote
  | list
  | embed
deriving DecidableEq, Repr

/-- One canvas block (`class Block`).  The `content` field is untyped (`Any`)
in the source and never inspected by the store; it is modelled as an opaque
string payload. -/
structure Block where
  id : String
  type : BlockType
  content : String
  metadata : Option BlockMetadata := none
deriving DecidableEq, Repr

/-- Pydantic validation of a block: only the optional metadata carries bounds. -/
def Block.metaOk (b : Block) : Bool :=
  match b.metadata with
  | none => true
  | some m => m.levelOk

/-- The task entity (`class Task`), with the source's pydantic defaults. -/
structure Task where
  id : Option String := none
  name : String
  status : Status := .queued
  progress : Int := 0
  user : String := "You"
  llm : String := "Claude Sonnet 4.5"
  startTime : Option String := none
  duration : Option String := none
  steps : List Step := []
  canvas : List Block := []
  logs : List String := []
deriving DecidableEq, Repr

/-- Pydantic validation of a full `Task` (`progress` bounds `ge=0, le=100`,
plus validation of the nested steps and canvas blocks). -/
def Task.valid (t : Task) : Bool :=
  decide (0 ≤ t.progress) && decide (t.progress ≤ 100)
    && t.steps.all Step.progressOk && t.canvas.all Block.metaOk

/-- Creation request (`class CreateTaskRequest`). -/
structure CreateTaskRequest where
  name : String
  user : String := "You"
  llm : String := "Claude Sonnet 4.5"
  steps : Option (List Step) := none
deriving DecidableEq, Repr

/-- Pydantic validation of a creation request: each supplied step's bounds. -/
def CreateTaskRequest.valid (r : CreateTaskRequest) : Bool :=
  match r.steps with
  | none => true
  | some ss => ss.all Step.progressOk

/-- Tri-state value of one pydantic field in a partial-update request:
absent (unset), explicitly supplied as `null`, or supplied with a value.
`model_dump(exclude_unset=True)` keeps `null` and `set` and drops `absent`. -/
inductive Patch (α : Type)
  | absent
  | null
  | set (a : α)
deriving DecidableEq, Repr

/-- A field is in the `exclude_unset` dump iff it was explicitly supplied. -/
def Patch.isSet {α : Type} : Patch α → Bool
  | .absent => false
  | _ => true

/-- Applying one dumped field with `$set`: absent leaves the stored value,
`null` stores null, a value replaces it. -/
def Patch.apply {α : Type} : Patch α → Option α → Option α
  | .absent, old => old
  | .null, _ => none
  | .set a, _ => some a

/-- Value of the pydantic attribute with a default fallback (`absent` and
`null` both read back as Python `None`). -/
def Patch.getD {α : Type} : Patch α → α → α
  | .set a, _ => a
  | _, dflt => dflt

/-- Pydantic range constraint applied to a patch's value, if any. -/
def Patch.valueOk {α : Type} (ok : α → Bool) : Patch α → Bool
  | .set a => ok a
  | _ => true

/-- Partial-update request (`class UpdateTaskRequest`): every field optional,
each modelled tri-state.  The request carries no `id` and no `startTime`
field, mirroring the source model. -/
structure UpdateTaskRequest where
  name : Patch String := .absent
  status : Patch Status := .absent
  progress : Patch Int := .absent
  user : Patch String := .absent
  llm : Patch String := .absent
  duration : Patch String := .absent
  steps : Patch (List Step) := .absent
  canvas : Patch (List Block) := .absent
  logs : Patch (List String) := .absent
  append_log : Patch String := .absent
deriving DecidableEq, Repr

/-- Pydantic validation of an update request: `progress` bounds and the
bounds inside supplied steps and canvas blocks. -/
def UpdateTaskRequest.valid (r : UpdateTaskRequest) : Bool :=
  r.progress.valueOk (fun p => decide (0 ≤ p) && decide (p ≤ 100))
    && r.steps.valueOk (List.all · Step.progressOk)
    && r.canvas.valueOk (List.all · Block.metaOk)

/-- The `updates` dict of `update_task` is non-empty: some field other than
`append_log` was explicitly supplied (`exclude_unset` keeps explicit nulls). -/
def UpdateTaskRequest.hasUpdates (r : UpdateTaskRequest) : Bool :=
  r.name.isSet || r.status.isSet || r.progress.isSet || r.user.isSet
    || r.llm.isSet || r.duration.isSet || r.steps.isSet || r.canvas.isSet
    || r.logs.isSet

/-- Truthiness of `req.append_log` in `if req.append_log:`: a supplied,
non-empty string (Python `None` and `""` are falsy). -/
def UpdateTaskRequest.appendTruthy (r : UpdateTaskRequest) : Bool :=
  match r.append_log with
  | .set s => !s.isEmpty
  | _ => false

/-- A stored task document.  Every field is `Option`-valued: `none` models a
JSON null in the record (a partial update may explicitly null any field).
Documents created by this service populate every field, so an absent field
never arises for service-created records.  `updated_at` is the audit stamp
written by `update_task`; timestamps are abstracted as naturals. -/
structure TaskDoc where
  name : Option String := none
  status : Option Status := none
  progress : Option Int := none
  user : Option String := none
  llm : Option String := none
  startTime : Option String := none
  duration : Option String := none
  steps : Option (List Step) := none
  canvas : Option (List Block) := none
  logs : Option (List String) := none
  updated_at : Option Nat := none
deriving DecidableEq, Repr

/-- The Mongo `task` collection, modelled as an association list from id
string to document (insertion prepends; lookup takes the first match). -/
abbrev Store := List (String × TaskDoc)

/-- `find_one({"_id": oid})`. -/
def Store.find_one (s : Store) (id : String) : Option TaskDoc :=
  (s.find? (fun kv => kv.1 == id)).map (fun kv => kv.2)

/-- `update_one({"_id": oid}, ...)`: rewrites the first matching document,
a no-op when no document matches. -/
def Store.update_one : Store → String → (TaskDoc → TaskDoc) → Store
  | [], _, _ => []
  | (k, d) :: rest, id, f =>
    if k == id then (k, f d) :: rest else (k, d) :: Store.update_one rest id f

/-- Hexadecimal digit test for ObjectId strings. -/
def isHexChar (c : Char) : Bool :=
  c.isDigit || (decide ('a' ≤ c) && decide (c ≤ 'f'))
    || (decide ('A' ≤ c) && decide (c ≤ 'F'))

/-- Syntactic validity of an id for the backing store: `ObjectId(id_str)`
accepts exactly a 24-character hexadecimal string; the `oid` helper turns a
failure into a Bad-Request error. -/
def isValidObjectId (s : String) : Bool :=
  s.length == 24 && s.toList.all isHexChar

/-- API outcomes: `badRequest`/`notFound` are the two `HTTPException`s raised
by the handlers; `serverError` models an uncaught exception (a pydantic
`ValidationError` while serializing the read-back document) surfacing as a
server error. -/
inductive ApiError
  | badRequest (detail : String)
  | notFound (detail : String)
  | serverError
deriving DecidableEq, Repr

/-- `serialize_task`: builds the response `Task` from a stored document,
`id` taken from the `_id` key.  `Task(**doc)` fails (pydantic
`ValidationError`) when a required field of the document is null or a range
bound is violated; `none` models that failure. -/
def serialize_task (id : String) (d : TaskDoc) : Option Task :=
  match d.name, d.status, d.progress, d.user, d.llm, d.steps, d.canvas, d.logs with
  | some nm, some st, some pr, some u, some l, some ss, some cv, some lg =>
    if Task.valid
        { id := some id, name := nm, status := st, progress := pr, user := u,
          llm := l, startTime := d.startTime, duration := d.duration,
          steps := ss, canvas := cv, logs := lg } then
      some
        { id := some id, name := nm, status := st, progress := pr, user := u,
          llm := l, startTime := d.startTime, duration := d.duration,
          steps := ss, canvas := cv, logs := lg }
    else none
  | _, _, _, _, _, _, _, _ => none

/-- The fixed four-step default pipeline of `create_task`. -/
def defaultSteps : List Step :=
  [{ name := "Analyze Data", status := .queued },
   { name := "Write Summary", status := .queued },
   { name := "Gen Charts", status := .queued },
   { name := "Final Assembly", status := .queued }]

/-- The document inserted for a freshly created task (all fields populated,
no `updated_at` yet). -/
def Task.toDoc (t : Task) : TaskDoc :=
  { name := some t.name, status := some t.status, progress := some t.progress,
    user := some t.user, llm := some t.llm, startTime := t.startTime,
    duration := t.duration, steps := some t.steps, canvas := some t.canvas,
    logs := some t.logs, updated_at := none }

/-- `POST /api/tasks` (`create_task`).  `now` is the ISO timestamp taken at
entry, `newId` the id the store assigns to the insert.  Validation of the
request body happens at the boundary, before any write.  `req.steps or
[...]` falls back to the default pipeline when `steps` is `None` or empty. -/
def create_task (now newId : String) (store : Store) (req : CreateTaskRequest) :
    Store × Except ApiError Task :=
  if !req.valid then (store, .error (.badRequest "Invalid request body"))
  else
    let steps :=
      match req.steps with
      | some (s :: rest) => s :: rest
      | _ => defaultSteps
    let task : Task :=
      { name := req.name, user := req.user, llm := req.llm, status := .queued,
        progress := 0, startTime := some now, steps := steps, canvas := [],
        logs := ["Task created"] }
    let store' : Store := (newId, task.toDoc) :: store
    match Store.find_one store' newId with
    | none => (store', .error .serverError)
    | some d =>
      match serialize_task newId d with
      | some t => (store', .ok t)
      | none => (store', .error .serverError)

/-- Shared read-back step of `get_task` and `update_task`: fetch the
document, 404 when absent, serialize it otherwise. -/
def readBack (store : Store) (task_id : String) : Except ApiError Task :=
  match Store.find_one store task_id with
  | none => .error (.notFound "Task not found")
  | some d =>
    match serialize_task task_id d with
    | some t => .ok t
    | none => .error .serverError

/-- `GET /api/tasks/{task_id}` (`get_task`). -/
def get_task (store : Store) (task_id : String) : Except ApiError Task :=
  if !isValidObjectId task_id then .error (.badRequest "Invalid id")
  else readBack store task_id

/-- Effect of the first `update_one` of `update_task`: `$push` the appended
entry onto `logs` and `$set` the audit stamp.  Mongo `$push` appends to the
stored array (creating a one-element array when the field is missing). -/
def pushLog (now : Nat) (entry : String) (d : TaskDoc) : TaskDoc :=
  { d with logs := some (d.logs.getD [] ++ [entry]), updated_at := some now }

/-- Effect of the second `update_one` of `update_task`: `$set` of the
`exclude_unset` dump of every field except `append_log`, plus the audit
stamp. -/
def applySet (now : Nat) (req : UpdateTaskRequest) (d : TaskDoc) : TaskDoc :=
  { d with
    name := req.name.apply d.name,
    status := req.status.apply d.status,
    progress := req.progress.apply d.progress,
    user := req.user.apply d.user,
    llm := req.llm.apply d.llm,
    duration := req.duration.apply d.duration,
    steps := req.steps.apply d.steps,
    canvas := req.canvas.apply d.canvas,
    logs := req.logs.apply d.logs,
    updated_at := some now }

/-- `PATCH /api/tasks/{task_id}` (`update_task`).  `n1` and `n2` are the two
`datetime.now` audit stamps.  Request-body validation happens at the
boundary; `oid` raises Bad-Request on a malformed id before any write (every
store call converts the same id string).  The append `update_one` runs
first, then the `$set` of the dumped fields, then the read-back. -/
def update_task (n1 n2 : Nat) (store : Store) (task_id : String)
    (req : UpdateTaskRequest) : Store × Except ApiError Task :=
  if !req.valid then (store, .error (.badRequest "Invalid request body"))
  else if !isValidObjectId task_id then (store, .error (.badRequest "Invalid id"))
  else
    let s1 :=
      if req.appendTruthy then
        Store.update_one store task_id (pushLog n1 (req.append_log.getD ""))
      else store
    let s2 :=
      if req.hasUpdates then Store.update_one s1 task_id (applySet n2 req)
      else s1
    (s2, readBack s2 task_id)

/-- Chat message roles. -/
inductive Role
  | user
  | assistant
deriving DecidableEq, Repr

/-- Values inside a quick-action payload dict. -/
inductive JsonVal
  | str (s : String)
  | bool (b : Bool)
deriving DecidableEq, Repr

/-- One suggested quick action (the source builds these as plain dicts). -/
structure QuickAction where
  label : String
  value : List (String × JsonVal)
  selected : Bool
deriving DecidableEq, Repr

/-- A chat turn (`class ChatMessage`). -/
structure ChatMessage where
  id : Option String := none
  role : Role
  content : String
  quickActions : Option (List QuickAction) := none
  timestamp : Option String := none
deriving DecidableEq, Repr

/-- `class ChatRequest`: the full replayed history, oldest first. -/
structure ChatRequest where
  history : List ChatMessage
deriving DecidableEq, Repr

/-- `class ChatResponse`. -/
structure ChatResponse where
  message : ChatMessage
  readyForTask : Bool := false
deriving DecidableEq, Repr

/-- Does the character list start with the pattern? -/
def charsStartWith : List Char → List Char → Bool
  | [], _ => true
  | _ :: _, [] => false
  | p :: ps, c :: cs => p == c && charsStartWith ps cs

/-- Does the pattern occur as a contiguous run of the character list? -/
def charsHaveSub (pat : List Char) : List Char → Bool
  | [] => charsStartWith pat []
  | c :: cs => charsStartWith pat (c :: cs) || charsHaveSub pat cs

/-- Python substring containment `pat in txt`. -/
def hasSubstr (txt pat : String) : Bool :=
  charsHaveSub pat.toList txt.toList

/-- The default gathering prompt of `chat`. -/
def gatheringPrompt : String :=
  "Let's define what you want to create. Pick metrics and time period, then hit Create Task."

/-- Rule-1 reply of `chat` (spec sufficient, proceed to creation). -/
def readyPrompt : String :=
  "Spec looks good. Click Create Task to start the pipeline."

/-- Rule-2 reply of `chat` (solicit optional extensions). -/
def solicitPrompt : String :=
  "Great, noted. Anything else to include? You can add competitor analysis or forecast."

/-- Rule-3 reply of `chat`: echo the input, re-ask for metrics and period. -/
def echoPrompt (content : String) : String :=
  "Got it: " ++ content ++ ". Which metrics and time period should we use?"

/-- The fixed quick-action suggestions attached to every reply. -/
def defaultQuickActions : List QuickAction :=
  [{ label := "All metrics", value := [("metrics", .str "all")], selected := true },
   { label := "Q4 2024", value := [("period", .str "Q4 2024")], selected := true },
   { label := "Add charts", value := [("charts", .bool true)], selected := false }]

/-- `POST /api/chat` (`chat`): a total function of the history; `now` is the
UTC timestamp stamped on the reply.  The decision looks only at the last
history entry and only when its role is `user`. -/
def chat (now : String) (req : ChatRequest) : ChatResponse :=
  let branch : String × Bool :=
    match req.history.getLast? with
    | some m =>
      if m.role == .user then
        let txt := m.content.toLower
        if hasSubstr txt "ready" || hasSubstr txt "create" then (readyPrompt, true)
        else if hasSubstr txt "metrics" || hasSubstr txt "period" then (solicitPrompt, false)
        else (echoPrompt m.content, false)
      else (gatheringPrompt, false)
    | none => (gatheringPrompt, false)
  { message :=
      { role := .assistant, content := branch.1,
        quickActions := some defaultQuickActions, timestamp := some now },
    readyForTask := branch.2 }

/-! Concrete sample data used by witnesses and counterexamples. -/

/-- A syntactically valid ObjectId string (24 hexadecimal characters). -/
def exId : String := "507f1f77bcf86cd799439011"

/-- A stored document exactly as `create_task` would have produced it. -/
def exTask : TaskDoc :=
  { name := some "Report", status := some .queued, progress := some 0,
    user := some "You", llm := some "Claude Sonnet 4.5",
    startTime := some "2024-01-01T00:00:00+00:00", duration := none,
    steps := some defaultSteps, canvas := some [], logs := some ["Task created"],
    updated_at := none }

/-! Store lemmas. -/

theorem find_one_update_one (s : Store) (id : String) (f : TaskDoc → TaskDoc) :
    Store.find_one (Store.update_one s id f) id = (Store.find_one s id).map f := by
  induction s with
  | nil => rfl
  | cons kv rest ih =>
    obtain ⟨k, d⟩ := kv
    by_cases h : (k == id) = true
    · simp [Store.update_one, Store.find_one, List.find?, h]
    · rw [Bool.not_eq_true] at h
      simp only [Store.update_one, Store.find_one, List.find?, h] at ih ⊢
      simpa using ih

theorem update_one_of_find_one_eq_none (s : Store) (id : String) (f : TaskDoc → TaskDoc)
    (h : Store.find_one s id = none) : Store.update_one s id f = s := by
  induction s with
  | nil => rfl
  | cons kv rest ih =>
    obtain ⟨k, d⟩ := kv
    by_cases hk : (k == id) = true
    · simp [Store.find_one, List.find?, hk] at h
    · rw [Bool.not_eq_true] at hk
      simp only [Store.find_one, List.find?, hk] at h
      simp only [Store.update_one, hk, Bool.false_eq_true, if_false, List.cons.injEq,
        true_and]
      exact ih h

/-- The document written by a successful partial update: the append
`update_one` first, then the `$set` of the dumped fields, each conditional
exactly as in the handler. -/
def afterUpdate (n1 n2 : Nat) (req : UpdateTaskRequest) (d : TaskDoc) : TaskDoc :=
  let d1 := if req.appendTruthy then pushLog n1 (req.append_log.getD "") d else d
  if req.hasUpdates then applySet n2 req d1 else d1

theorem update_task_eq (n1 n2 : Nat) (store : Store) (id : String)
    (req : UpdateTaskRequest) (hv : req.valid = true)
    (hid : isValidObjectId id = true) :
    update_task n1 n2 store id req =
      (let s1 := if req.appendTruthy then
          Store.update_one store id (pushLog n1 (req.append_log.getD "")) else store
       let s2 := if req.hasUpdates then Store.update_one s1 id (applySet n2 req) else s1
       (s2, readBack s2 id)) := by
  simp [update_task, hv, hid]

theorem update_task_find_one (n1 n2 : Nat) (store : Store) (id : String)
    (req : UpdateTaskRequest) (d : TaskDoc) (hv : req.valid = true)
    (hid : isValidObjectId id = true) (hf : Store.find_one store id = some d) :
    Store.find_one (update_task n1 n2 store id req).1 id
      = some (afterUpdate n1 n2 req d) := by
  rw [update_task_eq n1 n2 store id req hv hid]
  cases hA : req.appendTruthy <;> cases hU : req.hasUpdates <;>
    simp [afterUpdate, hA, hU, find_one_update_one, hf]

theorem update_task_snd (n1 n2 : Nat) (store : Store) (id : String)
    (req : UpdateTaskRequest) (hv : req.valid = true)
    (hid : isValidObjectId id = true) :
    (update_task n1 n2 store id req).2
      = readBack (update_task n1 n2 store id req).1 id := by
  rw [update_task_eq n1 n2 store id req hv hid]

/-! Serialization lemmas. -/

theorem serialize_task_fields (id : String) (d : TaskDoc) (t : Task)
    (h : serialize_task id d = some t) :
    t.id = some id ∧ t.startTime = d.startTime := by
  unfold serialize_task at h
  split at h
  · split at h
    · injection h with h
      subst h
      exact ⟨rfl, rfl⟩
    · exact Option.noConfusion h
  · exact Option.noConfusion h

theorem readBack_ok (s : Store) (id : String) (t : Task)
    (h : readBack s id = .ok t) :
    ∃ d, Store.find_one s id = some d ∧ serialize_task id d = some t := by
  unfold readBack at h
  split at h
  · exact Except.noConfusion h
  next d hf =>
    split at h
    next t' hs => exact ⟨d, hf, by rw [hs]; injection h with h; rw [h]⟩
    next hs => exact Except.noConfusion h

theorem afterUpdate_startTime (n1 n2 : Nat) (req : UpdateTaskRequest) (d : TaskDoc) :
    (afterUpdate n1 n2 req d).startTime = d.startTime := by
  cases hA : req.appendTruthy <;> cases hU : req.hasUpdates <;>
    simp [afterUpdate, hA, hU, applySet, pushLog]

theorem find_one_cons_self (s : Store) (id : String) (d : TaskDoc) :
    Store.find_one ((id, d) :: s) id = some d := by
  simp [Store.find_one, List.find?]

theorem serialize_task_toDoc (id : String) (t : Task) (h : t.valid = true) :
    serialize_task id t.toDoc = some { t with id := some id } := by
  obtain ⟨tid, nm, st, pr, u, l, stt, dur, ss, cv, lg⟩ := t
  simp only [Task.toDoc, serialize_task]
  simp only [Task.valid] at h ⊢
  simp only [h, if_true]

/-! Claim theorems. -/

/-- C3: only the fields explicitly present in an update request are changed;
every absent field of an existing task's document is left exactly as it was
(for `logs`, provided `append_log` is also absent).  In particular an update
supplying only `status` leaves `name`, `steps`, `canvas` and `logs`
unchanged. -/
theorem C3_partial_update_frame (n1 n2 : Nat) (store : Store) (id : String)
    (req : UpdateTaskRequest) (d : TaskDoc) (hv : req.valid = true)
    (hid : isValidObjectId id = true) (hf : Store.find_one store id = some d) :
    ∃ d', Store.find_one (update_task n1 n2 store id req).1 id = some d' ∧
      (req.name = .absent → d'.name = d.name) ∧
      (req.status = .absent → d'.status = d.status) ∧
      (req.progress = .absent → d'.progress = d.progress) ∧
      (req.user = .absent → d'.user = d.user) ∧
      (req.llm = .absent → d'.llm = d.llm) ∧
      (req.duration = .absent → d'.duration = d.duration) ∧
      (req.steps = .absent → d'.steps = d.steps) ∧
      (req.canvas = .absent → d'.canvas = d.canvas) ∧
      (req.logs = .absent → req.append_log = .absent → d'.logs = d.logs) := by
  refine ⟨afterUpdate n1 n2 req d,
    update_task_find_one n1 n2 store id req d hv hid hf, ?_, ?_, ?_, ?_, ?_, ?_, ?_, ?_, ?_⟩
  pick_goal 9
  · intro h h2
    have hA : req.appendTruthy = false := by
      simp [UpdateTaskRequest.appendTruthy, h2]
    cases hU : req.hasUpdates <;>
      simp [afterUpdate, hA, hU, applySet, Patch.apply, h]
  all_goals
    intro h
    cases hA : req.appendTruthy <;> cases hU : req.hasUpdates <;>
      simp [afterUpdate, hA, hU, applySet, pushLog, Patch.apply, h]

/-- C9: a partial update never changes a task's `id` or `startTime`: the
update request model carries neither field, the stored document keeps its
key and its `startTime`, and the returned task carries the same `id` and
`startTime` as before the update. -/
theorem C9_update_preserves_id_startTime (n1 n2 : Nat) (store : Store) (id : String)
    (req : UpdateTaskRequest) (d : TaskDoc) (hv : req.valid = true)
    (hid : isValidObjectId id = true) (hf : Store.find_one store id = some d) :
    ∃ d', Store.find_one (update_task n1 n2 store id req).1 id = some d' ∧
      d'.startTime = d.startTime ∧
      ∀ t, (update_task n1 n2 store id req).2 = .ok t →
        t.id = some id ∧ t.startTime = d.startTime := by
  refine ⟨afterUpdate n1 n2 req d,
    update_task_find_one n1 n2 store id req d hv hid hf,
    afterUpdate_startTime n1 n2 req d, ?_⟩
  intro t ht
  rw [update_task_snd n1 n2 store id req hv hid] at ht
  obtain ⟨d', hd', hser⟩ := readBack_ok _ _ _ ht
  rw [update_task_find_one n1 n2 store id req d hv hid hf] at hd'
  injection hd' with hd'
  subst hd'
  obtain ⟨h1, h2⟩ := serialize_task_fields id _ t hser
  exact ⟨h1, by rw [h2, afterUpdate_startTime]⟩

/-- C10: the partial update distinguishes an absent field from a field
explicitly supplied as null: an explicit null for `duration`, `steps`,
`canvas` or `logs` is written through to the stored record as null rather
than leaving the previous value in place. -/
theorem C10_explicit_null_written (n1 n2 : Nat) (store : Store) (id : String)
    (req : UpdateTaskRequest) (d : TaskDoc) (hv : req.valid = true)
    (hid : isValidObjectId id = true) (hf : Store.find_one store id = some d) :
    ∃ d', Store.find_one (update_task n1 n2 store id req).1 id = some d' ∧
      (req.duration = .null → d'.duration = none) ∧
      (req.steps = .null → d'.steps = none) ∧
      (req.canvas = .null → d'.canvas = none) ∧
      (req.logs = .null → d'.logs = none) := by
  refine ⟨afterUpdate n1 n2 req d,
    update_task_find_one n1 n2 store id req d hv hid hf, ?_, ?_, ?_, ?_⟩
  all_goals intro h
  · have hU : req.hasUpdates = true := by
      simp [UpdateTaskRequest.hasUpdates, h, Patch.isSet]
    cases hA : req.appendTruthy <;>
      simp [afterUpdate, hA, hU, applySet, Patch.apply, h]
  · have hU : req.hasUpdates = true := by
      simp [UpdateTaskRequest.hasUpdates, h, Patch.isSet]
    cases hA : req.appendTruthy <;>
      simp [afterUpdate, hA, hU, applySet, Patch.apply, h]
  · have hU : req.hasUpdates = true := by
      simp [UpdateTaskRequest.hasUpdates, h, Patch.isSet]
    cases hA : req.appendTruthy <;>
      simp [afterUpdate, hA, hU, applySet, Patch.apply, h]
  · have hU : req.hasUpdates = true := by
      simp [UpdateTaskRequest.hasUpdates, h, Patch.isSet]
    cases hA : req.appendTruthy <;>
      simp [afterUpdate, hA, hU, applySet, Patch.apply, h]

/-- Update request replacing `logs` wholesale while also appending. -/
def c2req : UpdateTaskRequest := { logs := .set ["X"], append_log := .set "Y" }

/-- C2 counterexample: replacing `logs` with `["X"]` while appending `"Y"`
on a task whose logs are `["Task created"]` leaves final logs exactly
`["X"]`: the appended entry `"Y"` is not present in the final state, so the
two effects are not both reflected. -/
theorem C2_counterexample :
    (Store.find_one (update_task 0 0 [(exId, exTask)] exId c2req).1 exId).map
        TaskDoc.logs = some (some ["X"]) ∧
      ¬ ("Y" ∈ (["X"] : List String)) := by
  constructor
  · rfl
  · decide

/-- C2 amended: when `logs` is supplied as a full replacement and
`append_log` is also present, the handler runs the append first and the
`$set` of the replacement second, so the replacement overwrites the logs
wholesale: the final `logs` equal exactly the replacement value and the
appended entry is not retained (unless it is part of the replacement). -/
theorem C2_replace_overrides_append (n1 n2 : Nat) (store : Store) (id : String)
    (req : UpdateTaskRequest) (d : TaskDoc) (L : List String) (a : String)
    (hv : req.valid = true) (hid : isValidObjectId id = true)
    (hf : Store.find_one store id = some d)
    (hL : req.logs = .set L) (ha : req.append_log = .set a) :
    ∃ d', Store.find_one (update_task n1 n2 store id req).1 id = some d' ∧
      d'.logs = some L := by
  refine ⟨afterUpdate n1 n2 req d,
    update_task_find_one n1 n2 store id req d hv hid hf, ?_⟩
  have hU : req.hasUpdates = true := by
    simp [UpdateTaskRequest.hasUpdates, hL, Patch.isSet]
  cases hA : req.appendTruthy <;>
    simp [afterUpdate, hA, hU, applySet, Patch.apply, hL]

/-- Update request appending the empty string. -/
def c4req : UpdateTaskRequest := { append_log := .set "" }

/-- C4 counterexample: supplying `append_log` as the empty string (a string,
explicitly present, with `logs` absent) leaves the stored logs exactly
`["Task created"]` — not `["Task created", ""]` as the claim's "any string"
reading requires — because `if req.append_log:` is falsy for `""`. -/
theorem C4_counterexample :
    (Store.find_one (update_task 0 0 [(exId, exTask)] exId c4req).1 exId).map
        TaskDoc.logs = some (some ["Task created"]) ∧
      (some (some ["Task created"]) : Option (Option (List String)))
        ≠ some (some (["Task created"] ++ [""])) := by
  constructor
  · rfl
  · decide

/-- C4 amended: when `append_log` is present with a non-empty string and
`logs` is not supplied, the resulting stored logs equal the previous logs
with the appended value as one new final entry — order preserved, no entry
dropped.  (An empty `append_log` string is ignored by the handler's
truthiness test.) -/
theorem C4_append_log (n1 n2 : Nat) (store : Store) (id : String)
    (req : UpdateTaskRequest) (d : TaskDoc) (l : List String) (s : String)
    (hv : req.valid = true) (hid : isValidObjectId id = true)
    (hf : Store.find_one store id = some d) (hl : d.logs = some l)
    (ha : req.append_log = .set s) (hs : s.isEmpty = false)
    (hlogs : req.logs = .absent) :
    ∃ d', Store.find_one (update_task n1 n2 store id req).1 id = some d' ∧
      d'.logs = some (l ++ [s]) := by
  refine ⟨afterUpdate n1 n2 req d,
    update_task_find_one n1 n2 store id req d hv hid hf, ?_⟩
  have hA : req.appendTruthy = true := by
    simp [UpdateTaskRequest.appendTruthy, ha, hs]
  cases hU : req.hasUpdates <;>
    simp [afterUpdate, hA, hU, applySet, pushLog, Patch.apply, Patch.getD, ha, hl, hlogs]

/-- C6: for a syntactically valid id with no stored record, both the read
and the partial update fail with Not-Found (no default task is returned and
the store is untouched); for a syntactically malformed id both fail with
Bad-Request. -/
theorem C6_missing_and_malformed_ids (n1 n2 : Nat) (store : Store) (id : String)
    (req : UpdateTaskRequest) (hv : req.valid = true) :
    (isValidObjectId id = true → Store.find_one store id = none →
      get_task store id = .error (.notFound "Task not found") ∧
      update_task n1 n2 store id req = (store, .error (.notFound "Task not found"))) ∧
    (isValidObjectId id = false →
      get_task store id = .error (.badRequest "Invalid id") ∧
      update_task n1 n2 store id req = (store, .error (.badRequest "Invalid id"))) := by
  constructor
  · intro hid hf
    constructor
    · simp [get_task, hid, readBack, hf]
    · rw [update_task_eq n1 n2 store id req hv hid]
      have h1 : Store.update_one store id (pushLog n1 (req.append_log.getD "")) = store :=
        update_one_of_find_one_eq_none store id _ hf
      have h2 : Store.update_one store id (applySet n2 req) = store :=
        update_one_of_find_one_eq_none store id _ hf
      cases hA : req.appendTruthy <;> cases hU : req.hasUpdates <;>
        simp [hA, hU, h1, h2, readBack, hf]
  · intro hid
    constructor
    · simp [get_task, hid]
    · simp [update_task, hv, hid]

/-- C7: for a history whose last entry is a user message, rule 1 ("ready" or
"create" in the lower-cased text) yields `readyForTask = true` and masks
rules 2 and 3 even when their keywords are also present; otherwise rule 2
("metrics" or "period") yields the soliciting reply with
`readyForTask = false`; otherwise the reply echoes the input and re-asks,
with `readyForTask = false`. -/
theorem C7_chat_keyword_rules (now : String) (req : ChatRequest) (m : ChatMessage)
    (hlast : req.history.getLast? = some m) (hrole : m.role = .user) :
    ((hasSubstr m.content.toLower "ready" = true ∨
        hasSubstr m.content.toLower "create" = true) →
      (chat now req).readyForTask = true ∧
      (chat now req).message.content = readyPrompt) ∧
    (hasSubstr m.content.toLower "ready" = false →
      hasSubstr m.content.toLower "create" = false →
      (hasSubstr m.content.toLower "metrics" = true ∨
        hasSubstr m.content.toLower "period" = true) →
      (chat now req).readyForTask = false ∧
      (chat now req).message.content = solicitPrompt) ∧
    (hasSubstr m.content.toLower "ready" = false →
      hasSubstr m.content.toLower "create" = false →
      hasSubstr m.content.toLower "metrics" = false →
      hasSubstr m.content.toLower "period" = false →
      (chat now req).readyForTask = false ∧
      (chat now req).message.content = echoPrompt m.content) := by
  refine ⟨?_, ?_, ?_⟩
  · rintro (h | h) <;> simp [chat, hlast, hrole, h]
  · intro h1 h2 h3
    rcases h3 with h3 | h3 <;> simp [chat, hlast, hrole, h1, h2, h3]
  · intro h1 h2 h3 h4
    simp [chat, hlast, hrole, h1, h2, h3, h4]

/-- C8: when the history is empty, or its last entry is not a user message,
the chat reply is the fixed default gathering prompt with
`readyForTask = false`.  The chat operation is a total function of the
history (`chat` has no failure outcome by construction). -/
theorem C8_chat_default (now : String) (req : ChatRequest)
    (h : req.history = [] ∨
      ∃ m, req.history.getLast? = some m ∧ m.role = .assistant) :
    (chat now req).message.content = gatheringPrompt ∧
    (chat now req).readyForTask = false := by
  rcases h with h | ⟨m, hm, hrole⟩
  · simp [chat, h]
  · simp [chat, hm, hrole]

/-- C1: a valid create request yields a task with `status = queued`,
`progress = 0`, `canvas = []`, `logs = ["Task created"]` and
`startTime = now`; when no steps (or an empty steps sequence) are supplied,
the steps are exactly the four defaults "Analyze Data", "Write Summary",
"Gen Charts", "Final Assembly" in that order, each `queued`; when a
non-empty steps sequence is supplied, the steps equal that sequence. -/
theorem C1_create_task_defaults (now newId : String) (store : Store)
    (req : CreateTaskRequest) (hv : req.valid = true) :
    ∃ t, (create_task now newId store req).2 = .ok t ∧
      t.status = .queued ∧ t.progress = 0 ∧ t.canvas = [] ∧
      t.logs = ["Task created"] ∧ t.startTime = some now ∧
      ((req.steps = none ∨ req.steps = some []) →
        t.steps = defaultSteps ∧
        t.steps.map Step.name =
          ["Analyze Data", "Write Summary", "Gen Charts", "Final Assembly"] ∧
        t.steps.all (fun s => s.status == Status.queued) = true) ∧
      (∀ ss, req.steps = some ss → ss ≠ [] → t.steps = ss) := by
  rcases hst : req.steps with _ | (_ | ⟨s, rest⟩)
  · have hval : Task.valid
        { name := req.name, user := req.user, llm := req.llm, status := .queued,
          progress := 0, startTime := some now, steps := defaultSteps,
          canvas := [], logs := ["Task created"] } = true := by
      simp only [Task.valid]
      rfl
    refine ⟨{ id := some newId, name := req.name, status := .queued, progress := 0,
              user := req.user, llm := req.llm, startTime := some now, duration := none,
              steps := defaultSteps, canvas := [], logs := ["Task created"] },
      ?_, rfl, rfl, rfl, rfl, rfl, fun _ => ⟨rfl, rfl, rfl⟩, ?_⟩
    · simp [create_task, hv, hst, find_one_cons_self, serialize_task_toDoc, hval]
    · intro ss hss
      exact absurd hss (by simp)
  · have hval : Task.valid
        { name := req.name, user := req.user, llm := req.llm, status := .queued,
          progress := 0, startTime := some now, steps := defaultSteps,
          canvas := [], logs := ["Task created"] } = true := by
      simp only [Task.valid]
      rfl
    refine ⟨{ id := some newId, name := req.name, status := .queued, progress := 0,
              user := req.user, llm := req.llm, startTime := some now, duration := none,
              steps := defaultSteps, canvas := [], logs := ["Task created"] },
      ?_, rfl, rfl, rfl, rfl, rfl, fun _ => ⟨rfl, rfl, rfl⟩, ?_⟩
    · simp [create_task, hv, hst, find_one_cons_self, serialize_task_toDoc, hval]
    · intro ss hss hne
      injection hss with hss
      exact absurd hss.symm hne
  · have hsteps : (s :: rest).all Step.progressOk = true := by
      have := hv
      rw [CreateTaskRequest.valid, hst] at this
      exact this
    have hval : Task.valid
        { name := req.name, user := req.user, llm := req.llm, status := .queued,
          progress := 0, startTime := some now, steps := s :: rest,
          canvas := [], logs := ["Task created"] } = true := by
      simp only [Task.valid]
      simp [hsteps]
    refine ⟨{ id := some newId, name := req.name, status := .queued, progress := 0,
              user := req.user, llm := req.llm, startTime := some now, duration := none,
              steps := s :: rest, canvas := [], logs := ["Task created"] },
      ?_, rfl, rfl, rfl, rfl, rfl, ?_, ?_⟩
    · simp [create_task, hv, hst, find_one_cons_self, serialize_task_toDoc, hval]
    · intro hcontr
      rcases hcontr with hc | hc <;> simp at hc
    · intro ss hss hne
      injection hss with hss

/-- A step carrying an explicit progress value. -/
def stepWithProgress (nm : String) (p : Int) : Step := { name := nm, progress := some p }

/-- Update request setting only the task-level progress. -/
def progressReq (p : Int) : UpdateTaskRequest := { progress := .set p }

/-- Update request replacing the steps with one step of the given progress. -/
def stepsReq (p : Int) : UpdateTaskRequest := { steps := .set [stepWithProgress "s" p] }

/-- Create request whose supplied steps carry progress 0 and 100. -/
def okCreateReq : CreateTaskRequest :=
  { name := "t", steps := some [stepWithProgress "s" 0, stepWithProgress "s2" 100] }

/-- C5: an out-of-range `progress` of -1 or 101 — on a step at creation, or
on the task or a step at update — is rejected as a Bad-Request client input
error with the store unchanged, while 0 and 100 pass validation. -/
theorem C5_progress_bounds (n1 n2 : Nat) (now newId id : String) (store : Store)
    (creq : CreateTaskRequest) (ureq : UpdateTaskRequest) (p : Int)
    (hp : p = -1 ∨ p = 101)
    (hc : ∃ st ∈ creq.steps.getD [], st.progress = some p)
    (hu : ureq.progress = .set p ∨
      ∃ ss, ureq.steps = .set ss ∧ ∃ st ∈ ss, st.progress = some p) :
    (∃ m, create_task now newId store creq = (store, .error (.badRequest m))) ∧
    (∃ m, update_task n1 n2 store id ureq = (store, .error (.badRequest m))) ∧
    Step.progressOk (stepWithProgress "s" 0) = true ∧
    Step.progressOk (stepWithProgress "s" 100) = true ∧
    (progressReq 0).valid = true ∧
    (progressReq 100).valid = true ∧
    (stepsReq 0).valid = true ∧
    okCreateReq.valid = true := by
  have hbadstep : ∀ st : Step, st.progress = some p → Step.progressOk st = false := by
    intro st hpr
    rcases hp with h | h <;> subst h <;> simp [Step.progressOk, hpr]
  refine ⟨?_, ?_, by decide, by decide, by decide, by decide, by decide, by decide⟩
  · obtain ⟨st, hmem, hpr⟩ := hc
    have hcv : creq.valid = false := by
      cases hsteps : creq.steps with
      | none => rw [hsteps] at hmem; simp at hmem
      | some ss =>
        rw [hsteps] at hmem
        simp only [Option.getD_some] at hmem
        rw [CreateTaskRequest.valid, hsteps]
        cases hall : ss.all Step.progressOk with
        | false => exact hall
        | true =>
          rw [List.all_eq_true] at hall
          exact absurd (hall st hmem) (by simp [hbadstep st hpr])
    exact ⟨"Invalid request body", by simp [create_task, hcv]⟩
  · have huv : ureq.valid = false := by
      rcases hu with h | ⟨ss, hss, st, hmem, hpr⟩
      · rw [UpdateTaskRequest.valid, h]
        rcases hp with hq | hq <;> subst hq <;> simp [Patch.valueOk]
      · rw [UpdateTaskRequest.valid, hss]
        have : ss.all Step.progressOk = false := by
          cases hall : ss.all Step.progressOk with
          | false => rfl
          | true =>
            rw [List.all_eq_true] at hall
            exact absurd (hall st hmem) (by simp [hbadstep st hpr])
        simp [Patch.valueOk, this]
    exact ⟨"Invalid request body", by simp [update_task, huv]⟩

/-! Witnesses: each claim theorem applied at a concrete input. -/

/-- Create request supplying no steps. -/
def c1req : CreateTaskRequest := { name := "Report" }

/-- Witness: C1 at a concrete create request with no steps. -/
theorem C1_create_task_defaults_witness :
    c1req.valid = true ∧
    (∃ t, (create_task "2024-01-01T00:00:00+00:00" exId [] c1req).2 = .ok t ∧
      t.status = .queued ∧ t.progress = 0 ∧ t.canvas = [] ∧
      t.logs = ["Task created"] ∧ t.startTime = some "2024-01-01T00:00:00+00:00" ∧
      ((c1req.steps = none ∨ c1req.steps = some []) →
        t.steps = defaultSteps ∧
        t.steps.map Step.name =
          ["Analyze Data", "Write Summary", "Gen Charts", "Final Assembly"] ∧
        t.steps.all (fun s => s.status == Status.queued) = true) ∧
      (∀ ss, c1req.steps = some ss → ss ≠ [] → t.steps = ss)) :=
  ⟨by decide,
    C1_create_task_defaults "2024-01-01T00:00:00+00:00" exId [] c1req (by decide)⟩

/-- Witness: C2 (amended) at a task with logs `["Task created"]`, replacing
logs with `["X"]` while appending `"Y"`. -/
theorem C2_replace_overrides_append_witness :
    c2req.valid = true ∧
    (∃ d', Store.find_one (update_task 0 0 [(exId, exTask)] exId c2req).1 exId
        = some d' ∧ d'.logs = some ["X"]) :=
  ⟨by decide,
    C2_replace_overrides_append 0 0 [(exId, exTask)] exId c2req exTask ["X"] "Y"
      (by decide) (by decide) (by decide) (by decide) (by decide)⟩

/-- Update request supplying only `status`. -/
def c3req : UpdateTaskRequest := { status := .set .running }

/-- Witness: C3 at a status-only update of a stored task. -/
theorem C3_partial_update_frame_witness :
    c3req.valid = true ∧
    (∃ d', Store.find_one (update_task 0 1 [(exId, exTask)] exId c3req).1 exId
        = some d' ∧
      (c3req.name = .absent → d'.name = exTask.name) ∧
      (c3req.status = .absent → d'.status = exTask.status) ∧
      (c3req.progress = .absent → d'.progress = exTask.progress) ∧
      (c3req.user = .absent → d'.user = exTask.user) ∧
      (c3req.llm = .absent → d'.llm = exTask.llm) ∧
      (c3req.duration = .absent → d'.duration = exTask.duration) ∧
      (c3req.steps = .absent → d'.steps = exTask.steps) ∧
      (c3req.canvas = .absent → d'.canvas = exTask.canvas) ∧
      (c3req.logs = .absent → c3req.append_log = .absent → d'.logs = exTask.logs)) :=
  ⟨by decide,
    C3_partial_update_frame 0 1 [(exId, exTask)] exId c3req exTask
      (by decide) (by decide) (by decide)⟩

/-- Update request appending the spec's example log line. -/
def c4okreq : UpdateTaskRequest := { append_log := .set "step 1 done" }

/-- Witness: C4 (amended) reproducing the spec example: logs
`["Task created"]` plus payload `"step 1 done"`. -/
theorem C4_append_log_witness :
    c4okreq.valid = true ∧
    (∃ d', Store.find_one (update_task 0 0 [(exId, exTask)] exId c4okreq).1 exId
        = some d' ∧ d'.logs = some (["Task created"] ++ ["step 1 done"])) :=
  ⟨by decide,
    C4_append_log 0 0 [(exId, exTask)] exId c4okreq exTask ["Task created"]
      "step 1 done" (by decide) (by decide) (by decide) (by decide) (by decide)
      (by decide) (by decide)⟩

/-- Create request with one step whose progress is -1. -/
def badCreateReq : CreateTaskRequest :=
  { name := "t", steps := some [stepWithProgress "s" (-1)] }

/-- Update request with task-level progress -1. -/
def badUpdateReq : UpdateTaskRequest := { progress := .set (-1) }

/-- Witness: C5 at progress -1 for a create step and a task update. -/
theorem C5_progress_bounds_witness :
    ((-1 : Int) = -1 ∨ (-1 : Int) = 101) ∧
    ((∃ m, create_task "T0" exId [] badCreateReq = ([], .error (.badRequest m))) ∧
     (∃ m, update_task 0 0 [] exId badUpdateReq = ([], .error (.badRequest m))) ∧
     Step.progressOk (stepWithProgress "s" 0) = true ∧
     Step.progressOk (stepWithProgress "s" 100) = true ∧
     (progressReq 0).valid = true ∧
     (progressReq 100).valid = true ∧
     (stepsReq 0).valid = true ∧
     okCreateReq.valid = true) :=
  ⟨Or.inl rfl,
    C5_progress_bounds 0 0 "T0" exId exId [] badCreateReq badUpdateReq (-1)
      (Or.inl rfl) ⟨stepWithProgress "s" (-1), by decide, by decide⟩
      (Or.inl (by decide))⟩

/-- Update request supplying nothing at all. -/
def noopUpdateReq : UpdateTaskRequest := {}

/-- Witness: C6 at a valid id over the empty store. -/
theorem C6_missing_and_malformed_ids_witness :
    noopUpdateReq.valid = true ∧
    ((isValidObjectId exId = true → Store.find_one [] exId = none →
      get_task [] exId = .error (.notFound "Task not found") ∧
      update_task 0 0 [] exId noopUpdateReq
        = ([], .error (.notFound "Task not found"))) ∧
    (isValidObjectId exId = false →
      get_task [] exId = .error (.badRequest "Invalid id") ∧
      update_task 0 0 [] exId noopUpdateReq
        = ([], .error (.badRequest "Invalid id")))) :=
  ⟨by decide, C6_missing_and_malformed_ids 0 0 [] exId noopUpdateReq (by decide)⟩

/-- A user message containing a rule-1 keyword and a rule-2 keyword. -/
def c7msg : ChatMessage := { role := .user, content := "ok I'm ready and metrics" }

/-- History ending in the mixed-keyword user message. -/
def c7req : ChatRequest := { history := [c7msg] }

/-- Witness: C7 at a message containing both "ready" and "metrics" (rule 1
masks rule 2). -/
theorem C7_chat_keyword_rules_witness :
    c7req.history.getLast? = some c7msg ∧ c7msg.role = .user ∧
    (((hasSubstr c7msg.content.toLower "ready" = true ∨
        hasSubstr c7msg.content.toLower "create" = true) →
      (chat "T0" c7req).readyForTask = true ∧
      (chat "T0" c7req).message.content = readyPrompt) ∧
    (hasSubstr c7msg.content.toLower "ready" = false →
      hasSubstr c7msg.content.toLower "create" = false →
      (hasSubstr c7msg.content.toLower "metrics" = true ∨
        hasSubstr c7msg.content.toLower "period" = true) →
      (chat "T0" c7req).readyForTask = false ∧
      (chat "T0" c7req).message.content = solicitPrompt) ∧
    (hasSubstr c7msg.content.toLower "ready" = false →
      hasSubstr c7msg.content.toLower "create" = false →
      hasSubstr c7msg.content.toLower "metrics" = false →
      hasSubstr c7msg.content.toLower "period" = false →
      (chat "T0" c7req).readyForTask = false ∧
      (chat "T0" c7req).message.content = echoPrompt c7msg.content)) :=
  ⟨rfl, rfl, C7_chat_keyword_rules "T0" c7req c7msg rfl rfl⟩

/-- The empty chat history. -/
def c8req : ChatRequest := { history := [] }

/-- Witness: C8 at the empty history. -/
theorem C8_chat_default_witness :
    (c8req.history = [] ∨
      ∃ m, c8req.history.getLast? = some m ∧ m.role = .assistant) ∧
    ((chat "T0" c8req).message.content = gatheringPrompt ∧
      (chat "T0" c8req).readyForTask = false) :=
  ⟨Or.inl rfl, C8_chat_default "T0" c8req (Or.inl rfl)⟩

/-- Update request setting progress to 50. -/
def c9req : UpdateTaskRequest := { progress := .set 50 }

/-- Witness: C9 at a progress update of a stored task. -/
theorem C9_update_preserves_id_startTime_witness :
    c9req.valid = true ∧
    (∃ d', Store.find_one (update_task 0 0 [(exId, exTask)] exId c9req).1 exId
        = some d' ∧
      d'.startTime = exTask.startTime ∧
      ∀ t, (update_task 0 0 [(exId, exTask)] exId c9req).2 = .ok t →
        t.id = some exId ∧ t.startTime = exTask.startTime) :=
  ⟨by decide,
    C9_update_preserves_id_startTime 0 0 [(exId, exTask)] exId c9req exTask
      (by decide) (by decide) (by decide)⟩

/-- Update request explicitly nulling the optional sequence fields. -/
def c10req : UpdateTaskRequest :=
  { duration := .null, steps := .null, canvas := .null, logs := .null }

/-- Witness: C10 at an update nulling `duration`, `steps`, `canvas`, `logs`. -/
theorem C10_explicit_null_written_witness :
    c10req.valid = true ∧
    (∃ d', Store.find_one (update_task 0 0 [(exId, exTask)] exId c10req).1 exId
        = some d' ∧
      (c10req.duration = .null → d'.duration = none) ∧
      (c10req.steps = .null → d'.steps = none) ∧
      (c10req.canvas = .null → d'.canvas = none) ∧
      (c10req.logs = .null → d'.logs = none)) :=
  ⟨by decide,
    C10_explicit_null_written 0 0 [(exId, exTask)] exId c10req exTask
      (by decide) (by decide) (by decide)⟩

end ERP
